import Mathlib

/-!
Verification development for the ESP32 smart-farming irrigation controller
(`Smart_Farming_V1.ino`).  The sketch's per-zone decision engine is embedded
shallowly: machine integers are `Nat`/`Int` with explicit `% 2 ^ w` where
wrap-around matters (`uint32_t millis` subtraction, `uint16_t` fault
counters), C `long` division is `Int.tdiv` (truncation toward zero), and the
hardware collaborators (analog reads, relay pins, serial I/O) are parameters
or result values.  Definitions come first, then the lemmas and theorems.
-/

namespace SmartFarming

/-- Per-zone configuration: the sketch's USER CONFIG globals that the control
logic reads (`DRY_ADC`/`WET_ADC`, thresholds, timing constants, fault
detection constants, time-window settings). -/
structure Config where
  dryAdc : Int
  wetAdc : Int
  onThreshold : Nat
  offThreshold : Nat
  minOnTimeMs : Nat
  maxOnTimeMs : Nat
  cooldownMs : Nat
  sampleIntervalMs : Nat
  faultCountLimit : Nat
  adcNearMin : Nat
  adcNearMax : Nat
  useTimeWindow : Bool
  startHour1 : Nat
  endHour1 : Nat
  startHour2 : Nat
  endHour2 : Nat
deriving Repr, DecidableEq

/-- The default values of the USER CONFIG globals in the sketch. -/
def defaultConfig : Config where
  dryAdc := 3200
  wetAdc := 1400
  onThreshold := 35
  offThreshold := 45
  minOnTimeMs := 10 * 1000
  maxOnTimeMs := 30 * 1000
  cooldownMs := 2 * 60 * 1000
  sampleIntervalMs := 1000
  faultCountLimit := 30
  adcNearMin := 20
  adcNearMax := 4090
  useTimeWindow := false
  startHour1 := 5
  endHour1 := 9
  startHour2 := 17
  endHour2 := 21

/-- The sketch's `struct ZoneState`. -/
structure ZoneState where
  watering : Bool
  lastSampleMs : Nat
  wateringStartMs : Nat
  lastWateringEndMs : Nat
  faultMinCount : Nat
  faultMaxCount : Nat
  sensorFault : Bool
  lastMoistPercent : Nat
  lastAdc : Nat
deriving Repr, DecidableEq

/-- The default-initialised `ZoneState` (all fields zero / false). -/
def initZone : ZoneState where
  watering := false
  lastSampleMs := 0
  wateringStartMs := 0
  lastWateringEndMs := 0
  faultMinCount := 0
  faultMaxCount := 0
  sensorFault := false
  lastMoistPercent := 0
  lastAdc := 0

/-- `uint32_t` subtraction `a - b` as used on `millis()` timestamps. -/
def sub32 (a b : Nat) : Nat :=
  (a % 4294967296 + (4294967296 - b % 4294967296)) % 4294967296

/-- `uint16_t` increment, as applied to the fault run counters. -/
def inc16 (n : Nat) : Nat := (n + 1) % 65536

/-- `setRelay`: commands the relay pin (external actuator) and records the
state change; `now` is the `millis()` value read inside the function. -/
def setRelay (s : ZoneState) (turnOn : Bool) (now : Nat) : ZoneState :=
  if turnOn then { s with watering := true, wateringStartMs := now }
  else { s with watering := false, lastWateringEndMs := now }

/-- `updateFault`: the two-rail consecutive-count fault detector. -/
def updateFault (cfg : Config) (s : ZoneState) (adc : Nat) : ZoneState :=
  let s1 := if adc ≤ cfg.adcNearMin then
    { s with faultMinCount := inc16 s.faultMinCount }
  else
    { s with faultMinCount := 0 }
  let s2 := if adc ≥ cfg.adcNearMax then
    { s1 with faultMaxCount := inc16 s1.faultMaxCount }
  else
    { s1 with faultMaxCount := 0 }
  if s2.faultMinCount ≥ cfg.faultCountLimit ∨ s2.faultMaxCount ≥ cfg.faultCountLimit then
    { s2 with sensorFault := true }
  else s2

/-- `adcToPercent`: calibration mapping from a raw ADC value to a moisture
percentage; `Int.tdiv` is C `long` division (Arduino `map` is
`(x - in_min) * (out_max - out_min) / (in_max - in_min) + out_min`). -/
def adcToPercent (adc : Nat) (dry wet : Int) : Nat :=
  if dry = wet then 0
  else
    let pct : Int := Int.tdiv (((adc : Int) - dry) * (100 - 0)) (wet - dry) + 0
    let pct1 : Int := if pct < 0 then 0 else pct
    let pct2 : Int := if pct1 > 100 then 100 else pct1
    pct2.toNat

/-- `cooldownPassed`: cooldown gate; `lastWateringEndMs == 0` means the zone
has never watered and is exempt. -/
def cooldownPassed (cfg : Config) (s : ZoneState) (now : Nat) : Bool :=
  if s.lastWateringEndMs = 0 then true
  else decide (sub32 now s.lastWateringEndMs ≥ cfg.cooldownMs)

/-- `wateringAllowedNow`: the optional time-of-day gate over the demo clock
(one simulated hour per minute of `millis`). -/
def wateringAllowedNow (cfg : Config) (now : Nat) : Bool :=
  if !cfg.useTimeWindow then true
  else
    let hour := now % 4294967296 / 60000 % 24
    (decide (cfg.startHour1 ≤ hour) && decide (hour ≤ cfg.endHour1)) ||
      (decide (cfg.startHour2 ≤ hour) && decide (hour ≤ cfg.endHour2))

/-- One per-zone control step: the body of the `for` loop in `loop()` after
the sample-interval guard has passed.  `now` is the `uint32_t` `millis()`
value; `adc` is the median-filtered reading returned by `readMedianAdc`. -/
def zoneStep (cfg : Config) (s : ZoneState) (now adc : Nat) : ZoneState :=
  let s0 := { s with lastSampleMs := now, lastAdc := adc }
  let s1 := updateFault cfg s0 adc
  if s1.sensorFault then
    if s1.watering then setRelay s1 false now else s1
  else
    let moistPct := adcToPercent adc cfg.dryAdc cfg.wetAdc
    let s2 := { s1 with lastMoistPercent := moistPct }
    if s2.watering ∧ sub32 now s2.wateringStartMs ≥ cfg.maxOnTimeMs then
      setRelay s2 false now
    else if ¬ s2.watering then
      if moistPct < cfg.onThreshold ∧ cooldownPassed cfg s2 now ∧ wateringAllowedNow cfg now then
        setRelay s2 true now
      else s2
    else
      if sub32 now s2.wateringStartMs ≥ cfg.minOnTimeMs ∧ moistPct > cfg.offThreshold then
        setRelay s2 false now
      else s2

/-- One `loop()` visit to a zone: the sample-interval guard, then the
control step when the interval has elapsed. -/
def loopTick (cfg : Config) (s : ZoneState) (now adc : Nat) : ZoneState :=
  if sub32 now s.lastSampleMs < cfg.sampleIntervalMs then s
  else zoneStep cfg s now adc

/-- A sequence of `loop()` visits to one zone, each supplying the `millis()`
value and the median ADC reading of that visit. -/
def runTicks (cfg : Config) (s : ZoneState) : List (Nat × Nat) → ZoneState
  | [] => s
  | (now, adc) :: rest => runTicks cfg (loopTick cfg s now adc) rest

/-- The zone state produced by `setup()`: `setRelay(i, false)` on the
default-initialised state, at the boot-time `millis()` value. -/
def setupZone (bootMs : Nat) : ZoneState := setRelay initZone false bootMs

/-- The inner `j` loop of `sortArray`: `a` is the running value of
`arr[i]`; each later element smaller than it is swapped into that slot.
Returns the final `arr[i]` and the rewritten tail. -/
def innerLoop : Nat → List Nat → Nat × List Nat
  | a, [] => (a, [])
  | a, b :: l =>
    if b < a then ((innerLoop b l).1, a :: (innerLoop b l).2)
    else ((innerLoop a l).1, b :: (innerLoop a l).2)

/-- The outer `i` loop of `sortArray`, with the recursion depth made
explicit as fuel; the inner loop preserves length, so fuel equal to the
list length (as used by `exchangeSort`) always suffices. -/
def exchangeSortAux : Nat → List Nat → List Nat
  | _, [] => []
  | 0, l => l
  | fuel + 1, a :: l => (innerLoop a l).1 :: exchangeSortAux fuel (innerLoop a l).2

/-- `sortArray`: the exchange sort of the sketch, expressed over lists. -/
def exchangeSort (l : List Nat) : List Nat := exchangeSortAux l.length l

/-- The sample-count clamping at the top of `readMedianAdc`: below 3 is
raised to 3, even counts are bumped to odd, and the result is capped at 15
(the sketch's stack-buffer bound). -/
def clampSamples (n : Nat) : Nat :=
  let n1 := if n < 3 then 3 else n
  let n2 := if n1 % 2 = 0 then n1 + 1 else n1
  if n2 > 15 then 15 else n2

/-- `readMedianAdc`: takes the clamped number of raw readings through the
SensorPort (the `readings` function abstracts the successive `analogRead`
results), sorts them with `sortArray` and returns the middle element. -/
def readMedianAdc (readings : Nat → Nat) (samples : Nat) : Nat :=
  let s := clampSamples samples
  let vals := (List.range s).map readings
  (exchangeSort vals).getD (s / 2) 0

/-- Reference sort-then-index median, per the spec's wording (stated with
Mathlib's insertion sort, an independent sorting routine). -/
def medianSpec (l : List Nat) : Nat :=
  (List.insertionSort (· ≤ ·) l).getD (l.length / 2) 0

/-- A concrete five-reading SensorPort trace used by the C8 witness. -/
def sampleTrace : Nat → Nat := fun k => [7, 3, 9, 1, 5].getD k 0

/-- A zone currently watering (started at `millis = 0`), otherwise fresh. -/
def onZone : ZoneState := { initZone with watering := true }

/-- A watering zone whose near-min run counter is one sample short of the
default fault limit. -/
def onZoneNearFault : ZoneState := { initZone with watering := true, faultMinCount := 29 }

/-- An idle zone that finished a watering cycle at `millis = 500`. -/
def restZone : ZoneState := { initZone with lastWateringEndMs := 500 }

/-- A zone with a latched sensor fault and a remembered moisture reading. -/
def faultedZone : ZoneState := { initZone with sensorFault := true, lastMoistPercent := 55 }

/-- C `isspace`, as used by Arduino `String::trim`. -/
def isSpaceCh (c : Char) : Bool :=
  c == ' ' || c == '\t' || c == '\n' || c == '\x0b' || c == '\x0c' || c == '\r'

/-- Arduino `String::trim`: strip leading and trailing whitespace. -/
def trimChars (l : List Char) : List Char :=
  ((l.dropWhile isSpaceCh).reverse.dropWhile isSpaceCh).reverse

/-- Arduino `String::toUpperCase` (ASCII `toupper` on each character). -/
def upcase (l : List Char) : List Char := l.map Char.toUpper

/-- Character-list prefix test (for `String::startsWith`). -/
def isPrefixOfChars : List Char → List Char → Bool
  | [], _ => true
  | _ :: _, [] => false
  | a :: as, b :: bs => a == b && isPrefixOfChars as bs

/-- Arduino `String::indexOf(substring)`: first index at or after `i` where
the pattern occurs (`i` starts at 0), `none` when absent. -/
def findSubstr (pat : List Char) : List Char → Nat → Option Nat
  | [], i => if isPrefixOfChars pat [] then some i else none
  | l@(_ :: rest), i => if isPrefixOfChars pat l then some i else findSubstr pat rest (i + 1)

/-- Arduino `String::indexOf(char, fromIndex)`: first index `≥ i0` holding
the character; `i` is the running index of the scan. -/
def findCharFrom (c : Char) : List Char → Nat → Nat → Option Nat
  | [], _, _ => none
  | b :: l, i, i0 => if i0 ≤ i ∧ b == c then some i else findCharFrom c l (i + 1) i0

/-- Scan for `lastIndexOfChar`, carrying the latest hit in `acc`. -/
def lastIndexAux (c : Char) : List Char → Nat → Option Nat → Option Nat
  | [], _, acc => acc
  | b :: l, i, acc => lastIndexAux c l (i + 1) (if b == c then some i else acc)

/-- Arduino `String::lastIndexOf(char)`. -/
def lastIndexOfChar (c : Char) (l : List Char) : Option Nat := lastIndexAux c l 0 none

/-- The digit-consuming loop of C `atol`: accumulates leading digits and
stops at the first non-digit. -/
def digitsVal : List Char → Nat → Nat
  | [], acc => acc
  | c :: l, acc => if c.isDigit then digitsVal l (acc * 10 + (c.toNat - 48)) else acc

/-- Arduino `String::toInt` (C `atol`): skip leading whitespace, optional
sign, then leading digits; 0 when no digits are found. -/
def atolChars (l : List Char) : Int :=
  match l.dropWhile isSpaceCh with
  | '-' :: rest => -(digitsVal rest 0 : Int)
  | '+' :: rest => (digitsVal rest 0 : Int)
  | l1 => (digitsVal l1 0 : Int)

/-- The per-zone lines printed by the `STATUS` command. -/
def statusLines (zs : List ZoneState) : List String :=
  "\n=== STATUS ===" ::
    (((List.range zs.length).zip zs).map (fun p =>
      "Zone " ++ toString (p.1 + 1) ++ " | ADC=" ++ toString p.2.lastAdc ++
      " | Moist%=" ++ toString p.2.lastMoistPercent ++
      " | Watering=" ++ (if p.2.watering then "YES" else "NO") ++
      " | Fault=" ++ (if p.2.sensorFault then "YES" else "NO")))
    ++ ["==============\n"]

/-- The per-zone lines printed by the `SHOWCAL` command. -/
def showcalLines (dry wet : List Int) : List String :=
  "\n=== CALIBRATION ===" ::
    ((List.range dry.length).map (fun i =>
      "Zone " ++ toString (i + 1) ++ " | DRY_ADC=" ++ toString (dry.getD i 0) ++
      " | WET_ADC=" ++ toString (wet.getD i 0)))
    ++ ["===================\n"]

/-- The zone-index integer a `CAL` command parses (the `toInt` of the
characters between `"Z "` and the next space), when both delimiters are
found. -/
def parsedZoneIdx (cmd : List Char) : Option Int :=
  match findSubstr ("Z ".toList) cmd 0 with
  | none => none
  | some zPos =>
    match findCharFrom ' ' cmd 0 (zPos + 2) with
    | none => none
    | some sp1 => some (atolChars ((cmd.drop (zPos + 2)).take (sp1 - (zPos + 2))))

/-- The calibration value a `CAL` command parses (the `toInt` of the
characters after the last space), when the line contains a space. -/
def parsedCalVal (cmd : List Char) : Option Int :=
  match lastIndexOfChar ' ' cmd with
  | none => none
  | some lastSpace => some (atolChars (cmd.drop (lastSpace + 1)))

/-- `handleSerial`: processes one input line against the calibration arrays
`dry`/`wet` and the (read-only) zone states, returning the printed lines
and the updated calibration arrays.  `handleSerial` never writes any
`ZoneState` field, which is why the zone states do not appear in the
result. -/
def handleLine (dry wet : List Int) (zs : List ZoneState) (line : List Char) :
    List String × List Int × List Int :=
  let cmd := upcase (trimChars line)
  if cmd = "STATUS".toList then (statusLines zs, dry, wet)
  else if cmd = "SHOWCAL".toList then (showcalLines dry wet, dry, wet)
  else if isPrefixOfChars ("CAL ".toList) cmd then
    match findSubstr ("Z ".toList) cmd 0 with
    | none => (["CAL format error. Example: CAL Z 1 DRY 3200"], dry, wet)
    | some zPos =>
      match findCharFrom ' ' cmd 0 (zPos + 2) with
      | none => ([], dry, wet)
      | some sp1 =>
        let zoneIndex := atolChars ((cmd.drop (zPos + 2)).take (sp1 - (zPos + 2)))
        if zoneIndex < 1 ∨ zoneIndex > 4 then (["Zone index must be 1-4"], dry, wet)
        else
          let isDryCal := (findSubstr (" DRY ".toList) cmd 0).isSome
          let isWetCal := (findSubstr (" WET ".toList) cmd 0).isSome
          match lastIndexOfChar ' ' cmd with
          | none => ([], dry, wet)
          | some lastSpace =>
            let v := atolChars (cmd.drop (lastSpace + 1))
            if v ≤ 0 then (["Invalid value"], dry, wet)
            else if isDryCal then
              (["Set Zone " ++ toString zoneIndex ++ " DRY_ADC=" ++ toString v],
                dry.set (zoneIndex - 1).toNat v, wet)
            else if isWetCal then
              (["Set Zone " ++ toString zoneIndex ++ " WET_ADC=" ++ toString v],
                dry, wet.set (zoneIndex - 1).toNat v)
            else (["Specify DRY or WET. Example: CAL Z 2 WET 1400"], dry, wet)
  else (["Unknown command. Try: STATUS | SHOWCAL | CAL Z 1 DRY 3200 | CAL Z 1 WET 1400"], dry, wet)

/-- The sketch's initial `DRY_ADC` array. -/
def dryAdcInit : List Int := [3200, 3200, 3200, 3200]

/-- The sketch's initial `WET_ADC` array. -/
def wetAdcInit : List Int := [1400, 1400, 1400, 1400]

/-! ### Structural lemmas about the primitive operations -/

@[simp] lemma setRelay_watering (s : ZoneState) (b : Bool) (now : Nat) :
    (setRelay s b now).watering = b := by cases b <;> rfl

@[simp] lemma setRelay_sensorFault (s : ZoneState) (b : Bool) (now : Nat) :
    (setRelay s b now).sensorFault = s.sensorFault := by cases b <;> rfl

@[simp] lemma setRelay_lastMoistPercent (s : ZoneState) (b : Bool) (now : Nat) :
    (setRelay s b now).lastMoistPercent = s.lastMoistPercent := by cases b <;> rfl

@[simp] lemma setRelay_lastAdc (s : ZoneState) (b : Bool) (now : Nat) :
    (setRelay s b now).lastAdc = s.lastAdc := by cases b <;> rfl

@[simp] lemma setRelay_faultMinCount (s : ZoneState) (b : Bool) (now : Nat) :
    (setRelay s b now).faultMinCount = s.faultMinCount := by cases b <;> rfl

@[simp] lemma setRelay_faultMaxCount (s : ZoneState) (b : Bool) (now : Nat) :
    (setRelay s b now).faultMaxCount = s.faultMaxCount := by cases b <;> rfl

@[simp] lemma setRelay_off_lastWateringEndMs (s : ZoneState) (now : Nat) :
    (setRelay s false now).lastWateringEndMs = now := rfl

@[simp] lemma setRelay_off_wateringStartMs (s : ZoneState) (now : Nat) :
    (setRelay s false now).wateringStartMs = s.wateringStartMs := rfl

@[simp] lemma setRelay_on_wateringStartMs (s : ZoneState) (now : Nat) :
    (setRelay s true now).wateringStartMs = now := rfl

@[simp] lemma setRelay_on_lastWateringEndMs (s : ZoneState) (now : Nat) :
    (setRelay s true now).lastWateringEndMs = s.lastWateringEndMs := rfl

@[simp] lemma updateFault_watering (cfg : Config) (s : ZoneState) (adc : Nat) :
    (updateFault cfg s adc).watering = s.watering := by
  simp only [updateFault]; split_ifs <;> rfl

@[simp] lemma updateFault_wateringStartMs (cfg : Config) (s : ZoneState) (adc : Nat) :
    (updateFault cfg s adc).wateringStartMs = s.wateringStartMs := by
  simp only [updateFault]; split_ifs <;> rfl

@[simp] lemma updateFault_lastWateringEndMs (cfg : Config) (s : ZoneState) (adc : Nat) :
    (updateFault cfg s adc).lastWateringEndMs = s.lastWateringEndMs := by
  simp only [updateFault]; split_ifs <;> rfl

@[simp] lemma updateFault_lastMoistPercent (cfg : Config) (s : ZoneState) (adc : Nat) :
    (updateFault cfg s adc).lastMoistPercent = s.lastMoistPercent := by
  simp only [updateFault]; split_ifs <;> rfl

@[simp] lemma updateFault_lastSampleMs (cfg : Config) (s : ZoneState) (adc : Nat) :
    (updateFault cfg s adc).lastSampleMs = s.lastSampleMs := by
  simp only [updateFault]; split_ifs <;> rfl

@[simp] lemma updateFault_lastAdc (cfg : Config) (s : ZoneState) (adc : Nat) :
    (updateFault cfg s adc).lastAdc = s.lastAdc := by
  simp only [updateFault]; split_ifs <;> rfl

/-- `updateFault` never clears an already-latched fault. -/
lemma updateFault_fault_mono (cfg : Config) (s : ZoneState) (adc : Nat)
    (h : s.sensorFault = true) : (updateFault cfg s adc).sensorFault = true := by
  simp only [updateFault]; split_ifs <;> simp_all

/-- The fault counters of `updateFault` do not depend on the observation
fields of the state. -/
lemma updateFault_counts_congr (cfg : Config) (s t : ZoneState) (adc : Nat)
    (hmin : s.faultMinCount = t.faultMinCount) (hmax : s.faultMaxCount = t.faultMaxCount) :
    (updateFault cfg s adc).faultMinCount = (updateFault cfg t adc).faultMinCount ∧
      (updateFault cfg s adc).faultMaxCount = (updateFault cfg t adc).faultMaxCount := by
  simp only [updateFault]; split_ifs <;> simp_all

/-- `updateFault` latches the fault flag as soon as either run counter has
reached the limit. -/
lemma updateFault_sets_fault (cfg : Config) (s : ZoneState) (adc : Nat)
    (h : (updateFault cfg s adc).faultMinCount ≥ cfg.faultCountLimit ∨
      (updateFault cfg s adc).faultMaxCount ≥ cfg.faultCountLimit) :
    (updateFault cfg s adc).sensorFault = true := by
  simp only [updateFault] at *
  split_ifs at * <;> first | rfl | (exfalso; omega)

/-- The fault flag computed by `updateFault` does not depend on the
observation fields of the state. -/
lemma updateFault_fault_congr (cfg : Config) (s t : ZoneState) (adc : Nat)
    (hmin : s.faultMinCount = t.faultMinCount) (hmax : s.faultMaxCount = t.faultMaxCount)
    (hf : s.sensorFault = t.sensorFault) :
    (updateFault cfg s adc).sensorFault = (updateFault cfg t adc).sensorFault := by
  simp only [updateFault]; split_ifs
  all_goals try simp_all
  all_goals exfalso; omega

/-- A `zoneStep` never clears an already-latched fault. -/
lemma zoneStep_fault_mono (cfg : Config) (s : ZoneState) (now adc : Nat)
    (h : s.sensorFault = true) : (zoneStep cfg s now adc).sensorFault = true := by
  simp only [zoneStep]
  have h1 : (updateFault cfg { s with lastSampleMs := now, lastAdc := adc } adc).sensorFault = true :=
    updateFault_fault_mono _ _ _ h
  split_ifs <;> simp_all

/-- The fault flag after a `zoneStep` is exactly the flag computed by
`updateFault` on the incoming state. -/
lemma zoneStep_sensorFault (cfg : Config) (s : ZoneState) (now adc : Nat) :
    (zoneStep cfg s now adc).sensorFault = (updateFault cfg s adc).sensorFault := by
  simp only [zoneStep]
  have h1 : (updateFault cfg { s with lastSampleMs := now, lastAdc := adc } adc).sensorFault
      = (updateFault cfg s adc).sensorFault :=
    updateFault_fault_congr cfg _ s adc rfl rfl rfl
  split_ifs <;> simp_all

/-- The fault counters after a `zoneStep` are exactly those computed by
`updateFault` on the incoming state. -/
lemma zoneStep_faultCounts (cfg : Config) (s : ZoneState) (now adc : Nat) :
    (zoneStep cfg s now adc).faultMinCount = (updateFault cfg s adc).faultMinCount ∧
      (zoneStep cfg s now adc).faultMaxCount = (updateFault cfg s adc).faultMaxCount := by
  simp only [zoneStep]
  have h1 := updateFault_counts_congr cfg { s with lastSampleMs := now, lastAdc := adc } s adc rfl rfl
  split_ifs <;> simp_all

/-- On a tick taken while the fault flag is already latched, the moisture
percentage is not recomputed. -/
lemma zoneStep_fault_keeps_pct (cfg : Config) (s : ZoneState) (now adc : Nat)
    (h : s.sensorFault = true) :
    (zoneStep cfg s now adc).lastMoistPercent = s.lastMoistPercent := by
  simp only [zoneStep]
  have h1 : (updateFault cfg { s with lastSampleMs := now, lastAdc := adc } adc).sensorFault = true :=
    updateFault_fault_mono _ _ _ h
  split_ifs <;> simp_all

/-- `loopTick` never clears an already-latched fault. -/
lemma loopTick_fault_mono (cfg : Config) (s : ZoneState) (now adc : Nat)
    (h : s.sensorFault = true) : (loopTick cfg s now adc).sensorFault = true := by
  unfold loopTick; split_ifs with h1
  · exact h
  · exact zoneStep_fault_mono cfg s now adc h

/-- The fault latch persists across any sequence of subsequent loop visits. -/
lemma runTicks_fault_mono (cfg : Config) (s : ZoneState) (ticks : List (Nat × Nat))
    (h : s.sensorFault = true) : (runTicks cfg s ticks).sensorFault = true := by
  induction ticks generalizing s with
  | nil => exact h
  | cons t rest ih =>
    obtain ⟨now, adc⟩ := t
    exact ih _ (loopTick_fault_mono cfg s now adc h)

/-- `loopTick` on a faulted state leaves the moisture percentage unchanged. -/
lemma loopTick_fault_keeps_pct (cfg : Config) (s : ZoneState) (now adc : Nat)
    (h : s.sensorFault = true) :
    (loopTick cfg s now adc).lastMoistPercent = s.lastMoistPercent := by
  unfold loopTick; split_ifs with h1
  · rfl
  · exact zoneStep_fault_keeps_pct cfg s now adc h

/-- While the fault is latched, the moisture percentage is frozen across any
sequence of subsequent loop visits. -/
lemma runTicks_fault_keeps_pct (cfg : Config) (s : ZoneState) (ticks : List (Nat × Nat))
    (h : s.sensorFault = true) :
    (runTicks cfg s ticks).lastMoistPercent = s.lastMoistPercent := by
  induction ticks generalizing s with
  | nil => rfl
  | cons t rest ih =>
    obtain ⟨now, adc⟩ := t
    rw [runTicks, ih _ (loopTick_fault_mono cfg s now adc h),
      loopTick_fault_keeps_pct cfg s now adc h]

/-- After a `zoneStep`, a faulted zone is never watering. -/
lemma zoneStep_fault_not_watering (cfg : Config) (s : ZoneState) (now adc : Nat)
    (h : (zoneStep cfg s now adc).sensorFault = true) :
    (zoneStep cfg s now adc).watering = false := by
  simp only [zoneStep] at *
  split_ifs at * <;> simp_all

/-- `loopTick` preserves the invariant that a faulted zone is not watering. -/
lemma loopTick_fault_inv (cfg : Config) (s : ZoneState) (now adc : Nat)
    (h : s.sensorFault = true → s.watering = false)
    (hf : (loopTick cfg s now adc).sensorFault = true) :
    (loopTick cfg s now adc).watering = false := by
  unfold loopTick at *
  split_ifs at * with h1
  · exact h hf
  · exact zoneStep_fault_not_watering cfg s now adc hf

/-- Any run of loop visits preserves the invariant that a faulted zone is
not watering. -/
lemma runTicks_fault_inv (cfg : Config) (s : ZoneState) (ticks : List (Nat × Nat))
    (h : s.sensorFault = true → s.watering = false)
    (hf : (runTicks cfg s ticks).sensorFault = true) :
    (runTicks cfg s ticks).watering = false := by
  induction ticks generalizing s with
  | nil => exact h hf
  | cons t rest ih =>
    obtain ⟨now, adc⟩ := t
    exact ih _ (loopTick_fault_inv cfg s now adc h) hf

/-! ### Lemmas about the exchange sort -/

lemma innerLoop_length (a : Nat) (l : List Nat) : (innerLoop a l).2.length = l.length := by
  induction l generalizing a with
  | nil => rfl
  | cons b l ih => simp only [innerLoop]; split_ifs <;> simp [ih]

lemma innerLoop_perm (a : Nat) (l : List Nat) :
    List.Perm ((innerLoop a l).1 :: (innerLoop a l).2) (a :: l) := by
  induction l generalizing a with
  | nil => exact List.Perm.refl _
  | cons b l ih =>
    simp only [innerLoop]
    split_ifs with h
    · exact (List.Perm.swap _ _ _).trans ((ih b).cons a)
    · exact ((List.Perm.swap _ _ _).trans ((ih a).cons b)).trans (List.Perm.swap _ _ _)

lemma innerLoop_min (a : Nat) (l : List Nat) :
    (innerLoop a l).1 ≤ a ∧ ∀ x ∈ (innerLoop a l).2, (innerLoop a l).1 ≤ x := by
  induction l generalizing a with
  | nil => simp [innerLoop]
  | cons b l ih =>
    simp only [innerLoop]
    split_ifs with h
    · refine ⟨le_trans (ih b).1 (le_of_lt h), ?_⟩
      intro x hx
      rcases List.mem_cons.mp hx with rfl | hx
      · exact le_trans (ih b).1 (le_of_lt h)
      · exact (ih b).2 x hx
    · refine ⟨(ih a).1, ?_⟩
      intro x hx
      rcases List.mem_cons.mp hx with rfl | hx
      · exact le_trans (ih a).1 (le_of_not_lt h)
      · exact (ih a).2 x hx

lemma exchangeSortAux_perm (fuel : Nat) :
    ∀ l : List Nat, l.length ≤ fuel → List.Perm (exchangeSortAux fuel l) l := by
  induction fuel with
  | zero =>
    intro l h
    cases l with
    | nil => rw [exchangeSortAux]
    | cons a l => simp at h
  | succ fuel ih =>
    intro l h
    cases l with
    | nil => rw [exchangeSortAux]
    | cons a l =>
      rw [exchangeSortAux]
      have hlen : (innerLoop a l).2.length ≤ fuel := by
        rw [innerLoop_length]; simpa using h
      exact ((ih _ hlen).cons _).trans (innerLoop_perm a l)

lemma exchangeSortAux_sorted (fuel : Nat) :
    ∀ l : List Nat, l.length ≤ fuel → List.Sorted (· ≤ ·) (exchangeSortAux fuel l) := by
  induction fuel with
  | zero =>
    intro l h
    cases l with
    | nil => rw [exchangeSortAux]; exact List.sorted_nil
    | cons a l => simp at h
  | succ fuel ih =>
    intro l h
    cases l with
    | nil => rw [exchangeSortAux]; exact List.sorted_nil
    | cons a l =>
      rw [exchangeSortAux, List.sorted_cons]
      have hlen : (innerLoop a l).2.length ≤ fuel := by
        rw [innerLoop_length]; simpa using h
      refine ⟨?_, ih _ hlen⟩
      intro b hb
      exact (innerLoop_min a l).2 b ((exchangeSortAux_perm fuel _ hlen).mem_iff.mp hb)

lemma exchangeSort_perm (l : List Nat) : List.Perm (exchangeSort l) l :=
  exchangeSortAux_perm l.length l le_rfl

lemma exchangeSort_sorted (l : List Nat) : List.Sorted (· ≤ ·) (exchangeSort l) :=
  exchangeSortAux_sorted l.length l le_rfl

lemma exchangeSort_eq_insertionSort (l : List Nat) :
    exchangeSort l = List.insertionSort (· ≤ ·) l :=
  List.eq_of_perm_of_sorted
    ((exchangeSort_perm l).trans (List.perm_insertionSort _ l).symm)
    (exchangeSort_sorted l) (List.sorted_insertionSort _ l)

lemma medianSpec_perm (l1 l2 : List Nat) (h : List.Perm l1 l2) :
    medianSpec l1 = medianSpec l2 := by
  unfold medianSpec
  have hs : List.insertionSort (· ≤ ·) l1 = List.insertionSort (· ≤ ·) l2 :=
    List.eq_of_perm_of_sorted
      ((List.perm_insertionSort _ l1).trans (h.trans (List.perm_insertionSort _ l2).symm))
      (List.sorted_insertionSort _ l1) (List.sorted_insertionSort _ l2)
  rw [hs, h.length_eq]

/-! ### Lemmas about the calibration arithmetic -/

/-- A truncating division of a nonpositive numerator by a nonnegative
denominator is nonpositive. -/
lemma tdiv_nonpos_of_nonpos_nonneg {a b : Int} (ha : a ≤ 0) (hb : 0 ≤ b) : a.tdiv b ≤ 0 := by
  have h1 : 0 ≤ (-a).tdiv b := Int.tdiv_nonneg (by omega) hb
  rw [Int.neg_tdiv] at h1
  omega

/-- A truncating division whose numerator is at least `100 *` the positive
denominator yields at least `100`. -/
lemma hundred_le_tdiv {a b : Int} (hb : 0 < b) (h : 100 * b ≤ a) : 100 ≤ a.tdiv b := by
  have ha : 0 ≤ a := le_trans (by positivity) h
  rw [Int.tdiv_eq_ediv ha (le_of_lt hb)]
  exact (Int.le_ediv_iff_mul_le hb).mpr h

/-- When the interpolation value is nonpositive, the clamp pins
`adcToPercent` at 0. -/
lemma adcToPercent_of_nonpos (raw : Nat) (dry wet : Int) (hne : dry ≠ wet)
    (h : Int.tdiv (((raw : Int) - dry) * 100) (wet - dry) ≤ 0) :
    adcToPercent raw dry wet = 0 := by
  simp only [adcToPercent, if_neg hne]
  norm_num
  split_ifs <;> omega

/-- When the interpolation value is at least 100, the clamp pins
`adcToPercent` at 100. -/
lemma adcToPercent_of_hundred_le (raw : Nat) (dry wet : Int) (hne : dry ≠ wet)
    (h : 100 ≤ Int.tdiv (((raw : Int) - dry) * 100) (wet - dry)) :
    adcToPercent raw dry wet = 100 := by
  simp only [adcToPercent, if_neg hne]
  norm_num
  split_ifs <;> omega

/-! ### Lemmas about the serial command parsing -/

lemma lastIndexAux_none (c : Char) (l : List Char) (i : Nat) (acc : Option Nat)
    (h : lastIndexAux c l i acc = none) : acc = none ∧ c ∉ l := by
  induction l generalizing i acc with
  | nil => simpa [lastIndexAux] using h
  | cons b l ih =>
    rw [lastIndexAux] at h
    obtain ⟨h1, h2⟩ := ih _ _ h
    by_cases hb : b == c
    · simp [hb] at h1
    · refine ⟨by simpa [hb] using h1, ?_⟩
      simp only [List.mem_cons, not_or]
      exact ⟨fun hcb => by simp [hcb.symm] at hb, h2⟩

lemma mem_of_isPrefixOfChars (pat l : List Char) (h : isPrefixOfChars pat l = true)
    (c : Char) (hc : c ∈ pat) : c ∈ l := by
  induction pat generalizing l with
  | nil => simp at hc
  | cons a as ih =>
    cases l with
    | nil => simp [isPrefixOfChars] at h
    | cons b bs =>
      rw [isPrefixOfChars, Bool.and_eq_true, beq_iff_eq] at h
      rcases List.mem_cons.mp hc with rfl | hc
      · exact List.mem_cons.mpr (Or.inl h.1)
      · exact List.mem_cons.mpr (Or.inr (ih bs h.2 hc))

/-- A line that starts with `"CAL "` contains a space, so `lastIndexOf`
cannot fail on it. -/
lemma lastIndexOfChar_ne_none_of_cal (cmd : List Char)
    (h : isPrefixOfChars ("CAL ".toList) cmd = true) :
    lastIndexOfChar ' ' cmd ≠ none := by
  intro hn
  exact ((lastIndexAux_none ' ' cmd 0 none hn).2)
    (mem_of_isPrefixOfChars _ cmd h ' ' (by decide))

/-! ### Claim theorems: watering state machine -/

/-- C1: once a zone is on, a control step taken before `minOnTimeMs` of
elapsed watering time never turns it off via the moisture-recovery rule,
regardless of the reported moisture: if it did turn off, the cause was the
fault shutdown or the max-on-time cutoff. -/
theorem minOnTime_blocks_moisture_off (cfg : Config) (s : ZoneState) (now adc : Nat)
    (hw : s.watering = true)
    (hmin : sub32 now s.wateringStartMs < cfg.minOnTimeMs)
    (hoff : (zoneStep cfg s now adc).watering = false) :
    (zoneStep cfg s now adc).sensorFault = true ∨
      sub32 now s.wateringStartMs ≥ cfg.maxOnTimeMs := by
  simp only [zoneStep] at *
  split_ifs at * <;> simp_all
  omega

/-- C1 witness: a watering zone 5 s into its cycle (< 10 s `minOnTimeMs`)
that is switched off by the fault shutdown. -/
theorem minOnTime_blocks_moisture_off_witness :
    onZoneNearFault.watering = true ∧
    sub32 5000 onZoneNearFault.wateringStartMs < defaultConfig.minOnTimeMs ∧
    (zoneStep defaultConfig onZoneNearFault 5000 0).watering = false ∧
    ((zoneStep defaultConfig onZoneNearFault 5000 0).sensorFault = true ∨
      sub32 5000 onZoneNearFault.wateringStartMs ≥ defaultConfig.maxOnTimeMs) :=
  ⟨by decide, by decide, by decide,
    minOnTime_blocks_moisture_off defaultConfig onZoneNearFault 5000 0
      (by decide) (by decide) (by decide)⟩

/-- C2: a watering zone whose elapsed watering time has reached
`maxOnTimeMs` is switched off by this control step no matter what moisture
the ADC reading maps to, the end time is recorded, and (when no fault fired)
the moisture percentage was still computed and stored before the cutoff,
whose `continue` skips the hysteresis-off check. -/
theorem maxOnTime_forces_off (cfg : Config) (s : ZoneState) (now adc : Nat)
    (hw : s.watering = true)
    (hmax : sub32 now s.wateringStartMs ≥ cfg.maxOnTimeMs) :
    (zoneStep cfg s now adc).watering = false ∧
    (zoneStep cfg s now adc).lastWateringEndMs = now ∧
    ((zoneStep cfg s now adc).sensorFault = false →
      (zoneStep cfg s now adc).lastMoistPercent = adcToPercent adc cfg.dryAdc cfg.wetAdc) := by
  simp only [zoneStep]
  split_ifs <;> simp_all

/-- C2 witness: a watering zone 30 s into its cycle with a bone-dry reading
(0 %) is still forced off. -/
theorem maxOnTime_forces_off_witness :
    onZone.watering = true ∧
    sub32 30000 onZone.wateringStartMs ≥ defaultConfig.maxOnTimeMs ∧
    (zoneStep defaultConfig onZone 30000 3200).watering = false ∧
    (zoneStep defaultConfig onZone 30000 3200).lastWateringEndMs = 30000 :=
  ⟨by decide, by decide,
    (maxOnTime_forces_off defaultConfig onZone 30000 3200 (by decide) (by decide)).1,
    (maxOnTime_forces_off defaultConfig onZone 30000 3200 (by decide) (by decide)).2.1⟩

/-- C3: on the tick where either fault run counter has reached
`faultRunLimit`, the fault flag is latched, and once latched it survives
every subsequent loop visit, whatever readings arrive. -/
theorem fault_latch (cfg : Config) (s : ZoneState) (now adc : Nat)
    (ticks : List (Nat × Nat)) :
    ((zoneStep cfg s now adc).faultMinCount ≥ cfg.faultCountLimit ∨
        (zoneStep cfg s now adc).faultMaxCount ≥ cfg.faultCountLimit →
      (zoneStep cfg s now adc).sensorFault = true) ∧
    ((zoneStep cfg s now adc).sensorFault = true →
      (runTicks cfg (zoneStep cfg s now adc) ticks).sensorFault = true) := by
  constructor
  · intro h
    rw [(zoneStep_faultCounts cfg s now adc).1, (zoneStep_faultCounts cfg s now adc).2] at h
    rw [zoneStep_sensorFault]
    exact updateFault_sets_fault cfg s adc h
  · intro h
    exact runTicks_fault_mono cfg _ ticks h

/-- C3 witness: the 30th consecutive near-min reading latches the fault and
it persists over later normal readings. -/
theorem fault_latch_witness :
    (zoneStep defaultConfig onZoneNearFault 1000 0).sensorFault = true ∧
    (runTicks defaultConfig (zoneStep defaultConfig onZoneNearFault 1000 0)
      [(2000, 3000), (3000, 3000)]).sensorFault = true :=
  ⟨(fault_latch defaultConfig onZoneNearFault 1000 0 [(2000, 3000), (3000, 3000)]).1 (by decide),
    (fault_latch defaultConfig onZoneNearFault 1000 0 [(2000, 3000), (3000, 3000)]).2
      ((fault_latch defaultConfig onZoneNearFault 1000 0 [(2000, 3000), (3000, 3000)]).1
        (by decide))⟩

/-- C4: after any control step a faulted zone is not watering; on the tick
the fault is seen with the zone on, the actuator is commanded off, the end
time is recorded and the remaining decision logic is skipped (moisture and
start time untouched); and the invariant is preserved along any run of loop
visits. -/
theorem faulted_zone_not_watering (cfg : Config) (s : ZoneState) (now adc : Nat)
    (ticks : List (Nat × Nat)) :
    ((zoneStep cfg s now adc).sensorFault = true →
      (zoneStep cfg s now adc).watering = false) ∧
    (s.watering = true → (zoneStep cfg s now adc).sensorFault = true →
      (zoneStep cfg s now adc).lastWateringEndMs = now ∧
      (zoneStep cfg s now adc).lastMoistPercent = s.lastMoistPercent ∧
      (zoneStep cfg s now adc).wateringStartMs = s.wateringStartMs) ∧
    ((s.sensorFault = true → s.watering = false) →
      (runTicks cfg s ticks).sensorFault = true → (runTicks cfg s ticks).watering = false) := by
  refine ⟨zoneStep_fault_not_watering cfg s now adc, ?_, runTicks_fault_inv cfg s ticks⟩
  intro hw hf
  simp only [zoneStep] at *
  split_ifs at * <;> simp_all

/-- C4 witness: a watering zone hit by its 30th near-min reading is
immediately switched off, with the frame conditions of the fault branch. -/
theorem faulted_zone_not_watering_witness :
    (zoneStep defaultConfig onZoneNearFault 1000 0).watering = false ∧
    (zoneStep defaultConfig onZoneNearFault 1000 0).lastWateringEndMs = 1000 ∧
    (runTicks defaultConfig onZoneNearFault [(1000, 0), (2000, 3000)]).watering = false :=
  ⟨(faulted_zone_not_watering defaultConfig onZoneNearFault 1000 0 []).1 (by decide),
    ((faulted_zone_not_watering defaultConfig onZoneNearFault 1000 0 []).2.1
      (by decide) (by decide)).1,
    (faulted_zone_not_watering defaultConfig onZoneNearFault 1000 0
      [(1000, 0), (2000, 3000)]).2.2 (by decide) (by decide)⟩

/-- C5: an idle zone that has watered before (`lastWateringEndMs ≠ 0`) does
not turn on while less than `cooldownMs` has elapsed since the watering end,
whatever moisture percentage the reading maps to. -/
theorem cooldown_blocks_turn_on (cfg : Config) (s : ZoneState) (now adc : Nat)
    (hw : s.watering = false) (hnz : s.lastWateringEndMs ≠ 0)
    (hcd : sub32 now s.lastWateringEndMs < cfg.cooldownMs) :
    (zoneStep cfg s now adc).watering = false := by
  simp only [zoneStep]
  split_ifs <;> simp_all [cooldownPassed]
  omega

/-- C5 witness: 700 ms after a watering cycle ended (cooldown 120 s), a
bone-dry 0 % reading still does not turn the zone on. -/
theorem cooldown_blocks_turn_on_witness :
    restZone.watering = false ∧
    restZone.lastWateringEndMs ≠ 0 ∧
    sub32 1200 restZone.lastWateringEndMs < defaultConfig.cooldownMs ∧
    (zoneStep defaultConfig restZone 1200 3200).watering = false :=
  ⟨by decide, by decide, by decide,
    cooldown_blocks_turn_on defaultConfig restZone 1200 3200
      (by decide) (by decide) (by decide)⟩

/-- C6 (amended): a zone whose `lastWateringEndMs` is the `0` "never"
marker is exempt from the cooldown gate and turns on as soon as the
moisture, fault and time-window conditions allow; however `setup()` itself
calls `setRelay(i, false)`, which stamps `lastWateringEndMs` with the boot
`millis()` value, so the state at system start is not the exempt one. -/
theorem neverWatered_cooldown_exempt (cfg : Config) (s : ZoneState) (now adc bootMs : Nat) :
    (s.lastWateringEndMs = 0 → cooldownPassed cfg s now = true) ∧
    (s.lastWateringEndMs = 0 → s.watering = false →
      (zoneStep cfg s now adc).sensorFault = false →
      adcToPercent adc cfg.dryAdc cfg.wetAdc < cfg.onThreshold →
      wateringAllowedNow cfg now = true →
      (zoneStep cfg s now adc).watering = true) ∧
    (setupZone bootMs).lastWateringEndMs = bootMs := by
  refine ⟨fun h => by simp [cooldownPassed, h], ?_, rfl⟩
  intro hz hw hf hpct hallow
  rw [zoneStep_sensorFault] at hf
  have hcongr : (updateFault cfg { s with lastSampleMs := now, lastAdc := adc } adc).sensorFault
      = (updateFault cfg s adc).sensorFault :=
    updateFault_fault_congr cfg _ s adc rfl rfl rfl
  simp only [zoneStep]
  split_ifs <;> simp_all [cooldownPassed]

/-- C6 witness: a zone whose end-time marker is the `0` "never" value turns
on at the first dry sample. -/
theorem neverWatered_cooldown_exempt_witness :
    cooldownPassed defaultConfig initZone 1000 = true ∧
    (zoneStep defaultConfig initZone 1000 3200).watering = true ∧
    (setupZone 7).lastWateringEndMs = 7 :=
  ⟨(neverWatered_cooldown_exempt defaultConfig initZone 1000 3200 7).1 (by decide),
    (neverWatered_cooldown_exempt defaultConfig initZone 1000 3200 7).2.1
      (by decide) (by decide) (by decide) (by decide) (by decide),
    (neverWatered_cooldown_exempt defaultConfig initZone 1000 3200 7).2.2⟩

/-- C6 counterexample: from the state `setup()` leaves behind (boot at
`millis = 200`), the first sample tick (at 1000 ms, reading 0 % moisture,
time window permitting, no fault) does *not* command the actuator on,
because `setup()`'s `setRelay(i, false)` recorded `lastWateringEndMs = 200`
and the cooldown gate is therefore armed. -/
theorem boot_state_not_cooldown_exempt :
    (setupZone 200).watering = false ∧
    (setupZone 200).lastWateringEndMs ≠ 0 ∧
    sub32 1000 (setupZone 200).lastSampleMs ≥ defaultConfig.sampleIntervalMs ∧
    adcToPercent 3200 defaultConfig.dryAdc defaultConfig.wetAdc < defaultConfig.onThreshold ∧
    wateringAllowedNow defaultConfig 1000 = true ∧
    (zoneStep defaultConfig (setupZone 200) 1000 3200).sensorFault = false ∧
    (zoneStep defaultConfig (setupZone 200) 1000 3200).watering = false := by
  decide

/-- C10: on a tick where the fault flag (newly or already latched) is set,
the raw reading is still recorded and the fault counters still updated, but
the moisture percentage is not recomputed; and while the fault stays
latched, the stored percentage is frozen over any later run of loop
visits. -/
theorem faulted_tick_frame (cfg : Config) (s : ZoneState) (now adc : Nat)
    (ticks : List (Nat × Nat)) :
    ((zoneStep cfg s now adc).sensorFault = true →
      (zoneStep cfg s now adc).lastAdc = adc ∧
      (zoneStep cfg s now adc).lastMoistPercent = s.lastMoistPercent ∧
      (zoneStep cfg s now adc).faultMinCount = (updateFault cfg s adc).faultMinCount ∧
      (zoneStep cfg s now adc).faultMaxCount = (updateFault cfg s adc).faultMaxCount) ∧
    (s.sensorFault = true →
      (runTicks cfg s ticks).lastMoistPercent = s.lastMoistPercent) := by
  refine ⟨?_, runTicks_fault_keeps_pct cfg s ticks⟩
  intro hf
  refine ⟨?_, ?_, (zoneStep_faultCounts cfg s now adc).1, (zoneStep_faultCounts cfg s now adc).2⟩
  · simp only [zoneStep] at *
    split_ifs at * <;> simp_all
  · simp only [zoneStep] at *
    split_ifs at * <;> simp_all

/-- C10 witness: a latched-faulted zone keeps reporting the stale 55 %
moisture value while recording fresh raw readings. -/
theorem faulted_tick_frame_witness :
    (zoneStep defaultConfig faultedZone 1000 2500).lastAdc = 2500 ∧
    (zoneStep defaultConfig faultedZone 1000 2500).lastMoistPercent = 55 ∧
    (runTicks defaultConfig faultedZone [(1000, 2500), (2000, 2600)]).lastMoistPercent = 55 :=
  ⟨((faulted_tick_frame defaultConfig faultedZone 1000 2500 []).1 (by decide)).1,
    ((faulted_tick_frame defaultConfig faultedZone 1000 2500 []).1 (by decide)).2.1,
    (faulted_tick_frame defaultConfig faultedZone 1000 2500
      [(1000, 2500), (2000, 2600)]).2 (by decide)⟩

/-! ### Claim theorems: calibration mapping -/

/-- C7: the calibration mapping returns 0 for a degenerate `dry = wet`
calibration; otherwise `raw = dry` maps to 0 %, `raw = wet` maps to 100 %,
a raw value beyond either reference clamps to 0 or 100 respectively (in
both the `dry < wet` and `wet < dry` orientations), and the result is
always within `[0, 100]` (the lower bound holds because the result is a
`Nat`). -/
theorem adcToPercent_calibration (raw : Nat) (dry wet : Int) :
    adcToPercent raw dry dry = 0 ∧
    (dry ≠ wet →
      (((raw : Int) = dry → adcToPercent raw dry wet = 0) ∧
       ((raw : Int) = wet → adcToPercent raw dry wet = 100) ∧
       (dry < wet → ((raw : Int) ≤ dry → adcToPercent raw dry wet = 0) ∧
                    (wet ≤ (raw : Int) → adcToPercent raw dry wet = 100)) ∧
       (wet < dry → (dry ≤ (raw : Int) → adcToPercent raw dry wet = 0) ∧
                    ((raw : Int) ≤ wet → adcToPercent raw dry wet = 100)))) ∧
    adcToPercent raw dry wet ≤ 100 := by
  refine ⟨by simp [adcToPercent], fun hne => ⟨?_, ?_, fun hlt => ⟨?_, ?_⟩, fun hgt => ⟨?_, ?_⟩⟩, ?_⟩
  · intro hd
    apply adcToPercent_of_nonpos raw dry wet hne
    rw [hd, sub_self, zero_mul, Int.zero_tdiv]
  · intro hw
    apply adcToPercent_of_hundred_le raw dry wet hne
    rw [hw]
    have hz : wet - dry ≠ 0 := by omega
    rw [Int.mul_tdiv_cancel_left 100 hz]
  · intro hle
    apply adcToPercent_of_nonpos raw dry wet hne
    exact tdiv_nonpos_of_nonpos_nonneg (by nlinarith) (by omega)
  · intro hge
    apply adcToPercent_of_hundred_le raw dry wet hne
    exact hundred_le_tdiv (by omega) (by nlinarith)
  · intro hge
    apply adcToPercent_of_nonpos raw dry wet hne
    exact Int.tdiv_nonpos (by nlinarith) (by omega)
  · intro hle
    apply adcToPercent_of_hundred_le raw dry wet hne
    rw [← Int.neg_tdiv_neg]
    exact hundred_le_tdiv (by omega) (by nlinarith)
  · simp only [adcToPercent, show ((100 : Int) - 0) = 100 from rfl, add_zero]
    split_ifs <;> omega

/-- C7 witness: the boundary and clamp behaviours at the sketch's default
calibration (3200 dry / 1400 wet) and at a reversed calibration. -/
theorem adcToPercent_calibration_witness :
    adcToPercent 1400 3200 3200 = 0 ∧
    adcToPercent 3200 3200 1400 = 0 ∧
    adcToPercent 1400 3200 1400 = 100 ∧
    adcToPercent 4095 3200 1400 = 0 ∧
    adcToPercent 100 1400 3200 = 0 ∧
    adcToPercent 4000 1400 3200 = 100 ∧
    adcToPercent 2300 3200 1400 ≤ 100 :=
  ⟨(adcToPercent_calibration 1400 3200 1400).1,
    ((adcToPercent_calibration 3200 3200 1400).2.1 (by decide)).1 (by decide),
    ((adcToPercent_calibration 1400 3200 1400).2.1 (by decide)).2.1 (by decide),
    (((adcToPercent_calibration 4095 3200 1400).2.1 (by decide)).2.2.2 (by decide)).1 (by decide),
    (((adcToPercent_calibration 100 1400 3200).2.1 (by decide)).2.2.1 (by decide)).1 (by decide),
    (((adcToPercent_calibration 4000 1400 3200).2.1 (by decide)).2.2.1 (by decide)).2 (by decide),
    (adcToPercent_calibration 2300 3200 1400).2.2⟩

/-! ### Claim theorems: median sampling -/

/-- C8: the requested sample count is clamped to an odd value in `[3, 15]`,
and the returned value is the true median of the readings taken: it equals
the reference sort-then-index median of the sampled list, and that median
is invariant under permutation of the readings. -/
theorem readMedianAdc_median (readings : Nat → Nat) (n : Nat) :
    3 ≤ clampSamples n ∧ clampSamples n % 2 = 1 ∧ clampSamples n ≤ 15 ∧
    readMedianAdc readings n = medianSpec ((List.range (clampSamples n)).map readings) ∧
    (∀ l : List Nat, List.Perm l ((List.range (clampSamples n)).map readings) →
      medianSpec l = medianSpec ((List.range (clampSamples n)).map readings)) := by
  refine ⟨?_, ?_, ?_, ?_, fun l h => medianSpec_perm _ _ h⟩
  · simp only [clampSamples]; split_ifs <;> omega
  · simp only [clampSamples]; split_ifs <;> first | omega | simp_all
  · simp only [clampSamples]; split_ifs <;> omega
  · simp only [readMedianAdc, medianSpec, exchangeSort_eq_insertionSort,
      List.length_map, List.length_range]

/-- C8 witness: a requested count of 4 is clamped to 5 readings
`[7, 3, 9, 1, 5]`, whose median is permutation-invariant. -/
theorem readMedianAdc_median_witness :
    3 ≤ clampSamples 4 ∧
    readMedianAdc sampleTrace 4
      = medianSpec ((List.range (clampSamples 4)).map sampleTrace) ∧
    medianSpec [5, 1, 9, 3, 7]
      = medianSpec ((List.range (clampSamples 4)).map sampleTrace) :=
  ⟨(readMedianAdc_median sampleTrace 4).1,
    (readMedianAdc_median sampleTrace 4).2.2.2.1,
    (readMedianAdc_median sampleTrace 4).2.2.2.2 [5, 1, 9, 3, 7] (by decide)⟩

/-! ### Claim theorems: serial command channel -/

/-- C9 (amended): the calibration arrays change only when the parsed zone
index lies in `[1, 4]` and the parsed value is positive (zone states are
never written by `handleSerial` at all); and the only input that produces
no response line is a `CAL` command containing `"Z "` but no further space
after it — that malformed shape is silently ignored, every other command
(malformed or not) prints at least one line. -/
theorem handleSerial_cal_validation (dry wet : List Int) (zs : List ZoneState) (line : List Char) :
    (((handleLine dry wet zs line).2.1 ≠ dry ∨ (handleLine dry wet zs line).2.2 ≠ wet) →
      ∃ zi, parsedZoneIdx (upcase (trimChars line)) = some zi ∧ 1 ≤ zi ∧ zi ≤ 4 ∧
        ∃ v, parsedCalVal (upcase (trimChars line)) = some v ∧ 0 < v) ∧
    ((handleLine dry wet zs line).1 = [] →
      isPrefixOfChars ("CAL ".toList) (upcase (trimChars line)) = true ∧
      ∃ zPos, findSubstr ("Z ".toList) (upcase (trimChars line)) 0 = some zPos ∧
        findCharFrom ' ' (upcase (trimChars line)) 0 (zPos + 2) = none) := by
  simp only [handleLine]
  by_cases h1 : upcase (trimChars line) = "STATUS".toList
  · simp only [if_pos h1]
    exact ⟨by simp, by simp [statusLines]⟩
  simp only [if_neg h1]
  by_cases h2 : upcase (trimChars line) = "SHOWCAL".toList
  · simp only [if_pos h2]
    exact ⟨by simp, by simp [showcalLines]⟩
  simp only [if_neg h2]
  by_cases h3 : isPrefixOfChars ("CAL ".toList) (upcase (trimChars line)) = true
  swap
  · simp only [if_neg h3]
    exact ⟨by simp, by simp⟩
  simp only [if_pos h3]
  cases hfz : findSubstr ("Z ".toList) (upcase (trimChars line)) 0 with
  | none =>
    simp only [hfz]
    exact ⟨by simp, by simp⟩
  | some zPos =>
    simp only [hfz]
    cases hsp : findCharFrom ' ' (upcase (trimChars line)) 0 (zPos + 2) with
    | none =>
      simp only [hsp]
      exact ⟨by simp, fun _ => ⟨h3, zPos, rfl, hsp⟩⟩
    | some sp1 =>
      simp only [hsp]
      by_cases h4 :
          atolChars (((upcase (trimChars line)).drop (zPos + 2)).take (sp1 - (zPos + 2))) < 1 ∨
          atolChars (((upcase (trimChars line)).drop (zPos + 2)).take (sp1 - (zPos + 2))) > 4
      · simp only [if_pos h4]
        exact ⟨by simp, by simp⟩
      simp only [if_neg h4]
      cases hls : lastIndexOfChar ' ' (upcase (trimChars line)) with
      | none => exact absurd hls (lastIndexOfChar_ne_none_of_cal _ h3)
      | some lastSpace =>
        simp only [hls]
        by_cases h5 : atolChars ((upcase (trimChars line)).drop (lastSpace + 1)) ≤ 0
        · simp only [if_pos h5]
          exact ⟨by simp, by simp⟩
        simp only [if_neg h5]
        push_neg at h4 h5
        have hzi : parsedZoneIdx (upcase (trimChars line)) =
            some (atolChars (((upcase (trimChars line)).drop (zPos + 2)).take
              (sp1 - (zPos + 2)))) := by
          simp only [parsedZoneIdx, hfz, hsp]
        have hv : parsedCalVal (upcase (trimChars line)) =
            some (atolChars ((upcase (trimChars line)).drop (lastSpace + 1))) := by
          simp only [parsedCalVal, hls]
        by_cases h6 : (findSubstr (" DRY ".toList) (upcase (trimChars line)) 0).isSome = true
        · simp only [if_pos h6]
          exact ⟨fun _ => ⟨_, hzi, h4.1, h4.2, _, hv, h5⟩, by simp⟩
        simp only [if_neg h6]
        by_cases h7 : (findSubstr (" WET ".toList) (upcase (trimChars line)) 0).isSome = true
        · simp only [if_pos h7]
          exact ⟨fun _ => ⟨_, hzi, h4.1, h4.2, _, hv, h5⟩, by simp⟩
        · simp only [if_neg h7]
          exact ⟨by simp, by simp⟩

/-- C9 witness: `cal z 2 wet 1401` changes the calibration state, so the
theorem yields its parsed zone index in range and positive value; and for
the silent line `CAL Z 1` the theorem locates the missing delimiter. -/
theorem handleSerial_cal_validation_witness :
    (∃ zi, parsedZoneIdx (upcase (trimChars ("cal z 2 wet 1401".toList))) = some zi ∧
      1 ≤ zi ∧ zi ≤ 4 ∧
      ∃ v, parsedCalVal (upcase (trimChars ("cal z 2 wet 1401".toList))) = some v ∧ 0 < v) ∧
    (isPrefixOfChars ("CAL ".toList) (upcase (trimChars ("CAL Z 1".toList))) = true ∧
      ∃ zPos, findSubstr ("Z ".toList) (upcase (trimChars ("CAL Z 1".toList))) 0 = some zPos ∧
        findCharFrom ' ' (upcase (trimChars ("CAL Z 1".toList))) 0 (zPos + 2) = none) :=
  ⟨(handleSerial_cal_validation dryAdcInit wetAdcInit [] ("cal z 2 wet 1401".toList)).1
      (by decide),
    (handleSerial_cal_validation dryAdcInit wetAdcInit [] ("CAL Z 1".toList)).2 (by decide)⟩

/-- C9 counterexample: the malformed line `CAL Z 1` (a `CAL` command that
sets nothing) produces *no* output line at all — `handleSerial` hits the
silent `if (sp1 < 0) return;` — contradicting the claim that every
malformed command produces a human-readable error message.  The state is
indeed unchanged. -/
theorem calSilentLine_counterexample :
    (handleLine dryAdcInit wetAdcInit [initZone, initZone, initZone, initZone]
        ("CAL Z 1".toList)).1 = [] ∧
    (handleLine dryAdcInit wetAdcInit [initZone, initZone, initZone, initZone]
        ("CAL Z 1".toList)).2.1 = dryAdcInit ∧
    (handleLine dryAdcInit wetAdcInit [initZone, initZone, initZone, initZone]
        ("CAL Z 1".toList)).2.2 = wetAdcInit ∧
    isPrefixOfChars ("CAL ".toList) (upcase (trimChars ("CAL Z 1".toList))) = true := by
  decide

end SmartFarming
